import Mathlib

/-!
Shallow embedding of the interaction/geometry core of `src/main.py`
(a screenshot-and-annotate utility built on Qt via PySide6).

Python floats are modelled as exact rationals (`ℚ`), Python ints as `ℤ`.
`QPoint`/`QRect` are modelled with Qt 6 semantics: a `QRect` stores the
two corner coordinates `(x1, y1)`/`(x2, y2)` and its `width` is
`x2 - x1 + 1` (similarly for `height`); `QRect.normalized` and
`QRect.intersected` follow the Qt 6 implementations, which the Python
code calls.
-/

namespace Snipaste

/-- Integer point, mirroring `QPoint` / `event.position().toPoint()`. -/
structure QPointT where
  x : ℤ
  y : ℤ
deriving DecidableEq, Repr

/-- Integer rectangle stored as in Qt: top-left corner `(x1, y1)` and
bottom-right corner `(x2, y2)`, both inclusive. -/
structure QRectT where
  x1 : ℤ
  y1 : ℤ
  x2 : ℤ
  y2 : ℤ
deriving DecidableEq, Repr

/-- The `QRect(x, y, w, h)` constructor: stores `x2 = x + w - 1`,
`y2 = y + h - 1`. -/
def QRectT.mk4 (x y w h : ℤ) : QRectT :=
  ⟨x, y, x + w - 1, y + h - 1⟩

/-- The `QRect(topLeft, bottomRight)` constructor used by
`CaptureOverlay._selection_rect` via `QtCore.QRect(origin, current)`. -/
def QRectT.fromCorners (tl br : QPointT) : QRectT :=
  ⟨tl.x, tl.y, br.x, br.y⟩

/-- `QRect.width()` is `x2 - x1 + 1` in Qt. -/
def QRectT.width (r : QRectT) : ℤ :=
  r.x2 - r.x1 + 1

/-- `QRect.height()` is `y2 - y1 + 1` in Qt. -/
def QRectT.height (r : QRectT) : ℤ :=
  r.y2 - r.y1 + 1

/-- `QRect.x()` accessor. -/
def QRectT.xpos (r : QRectT) : ℤ :=
  r.x1

/-- `QRect.y()` accessor. -/
def QRectT.ypos (r : QRectT) : ℤ :=
  r.y1

/-- `QRect.isNull()`: both width and height are zero. -/
def QRectT.isNull (r : QRectT) : Bool :=
  decide (r.x2 = r.x1 - 1) && decide (r.y2 = r.y1 - 1)

/-- The default-constructed null rectangle `QRect()`. -/
def QRectT.nullRect : QRectT :=
  ⟨0, 0, -1, -1⟩

/-- `QRect.normalized()` (Qt 6): when a stored extent is negative the two
corner coordinates are swapped and moved inwards by one unit each, so the
result has the same center and the absolute values of width/height. -/
def QRectT.normalized (r : QRectT) : QRectT :=
  { x1 := if r.x2 < r.x1 then r.x2 + 1 else r.x1
    y1 := if r.y2 < r.y1 then r.y2 + 1 else r.y1
    x2 := if r.x2 < r.x1 then r.x1 - 1 else r.x2
    y2 := if r.y2 < r.y1 then r.y1 - 1 else r.y2 }

/-- `QRect.intersected` (Qt 6 `operator&`): null operands give the null
rectangle; otherwise both operands are put in left-to-right order and the
overlap is taken, the null rectangle when the spans are disjoint. -/
def QRectT.intersected (a b : QRectT) : QRectT :=
  if a.isNull || b.isNull then QRectT.nullRect
  else
    let l1 := if a.x2 < a.x1 then a.x2 else a.x1
    let r1 := if a.x2 < a.x1 then a.x1 else a.x2
    let l2 := if b.x2 < b.x1 then b.x2 else b.x1
    let r2 := if b.x2 < b.x1 then b.x1 else b.x2
    if r2 < l1 || r1 < l2 then QRectT.nullRect
    else
      let t1 := if a.y2 < a.y1 then a.y2 else a.y1
      let b1 := if a.y2 < a.y1 then a.y1 else a.y2
      let t2 := if b.y2 < b.y1 then b.y2 else b.y1
      let b2 := if b.y2 < b.y1 then b.y1 else b.y2
      if b2 < t1 || b1 < t2 then QRectT.nullRect
      else ⟨max l1 l2, max t1 t2, min r1 r2, min b1 b2⟩

/-- The spec's `normalizeRect(origin, current)`, as the code computes it:
`QtCore.QRect(self._origin, self._current).normalized()`
(`CaptureOverlay._selection_rect`, src/main.py lines 51-55). -/
def normalizeRect (o c : QPointT) : QRectT :=
  (QRectT.fromCorners o c).normalized

/-- Mutable fields of `CaptureOverlay` relevant to the selection gesture. -/
structure OverlaySt where
  origin : Option QPointT
  curr : Option QPointT
deriving DecidableEq, Repr

/-- Initial overlay state: `self._origin = None`, `self._current = None`. -/
def OverlaySt.init : OverlaySt :=
  ⟨none, none⟩

/-- `CaptureOverlay._selection_rect`. -/
def OverlaySt.selectionRect (s : OverlaySt) : Option QRectT :=
  match s.origin, s.curr with
  | some o, some c => some (normalizeRect o c)
  | _, _ => none

/-- `CaptureOverlay.mousePressEvent`: non-left buttons are ignored;
a left press sets `origin = current = press point`. -/
def OverlaySt.mousePress (s : OverlaySt) (leftButton : Bool) (p : QPointT) :
    OverlaySt :=
  if leftButton then ⟨some p, some p⟩ else s

/-- `CaptureOverlay.mouseMoveEvent`: ignored until an origin is set;
otherwise updates the current point. -/
def OverlaySt.mouseMove (s : OverlaySt) (p : QPointT) : OverlaySt :=
  if s.origin = none then s else { s with curr := some p }

/-- Outcome of a left-button release on the overlay: exactly one of the
`captured` / `cancelled` signals is emitted. -/
inductive ReleaseOutcome where
  | committed (r : QRectT)
  | cancelledGesture
deriving DecidableEq, Repr

/-- `CaptureOverlay.mouseReleaseEvent`: non-left buttons do nothing
(`none`); otherwise the gesture is cancelled when there is no selection
rectangle or it is smaller than 4×4, and committed (emitting the
rectangle) otherwise. -/
def OverlaySt.mouseRelease (s : OverlaySt) (leftButton : Bool) :
    Option ReleaseOutcome :=
  if leftButton then
    match s.selectionRect with
    | none => some .cancelledGesture
    | some r =>
      if r.width < 4 ∨ r.height < 4 then some .cancelledGesture
      else some (.committed r)
  else none

/-- Truncation toward zero, the semantics of Python's `int(...)` applied
to a (here: exact rational) float. -/
def ratTrunc (q : ℚ) : ℤ :=
  if q < 0 then -⌊-q⌋ else ⌊q⌋

/-- `CanvasWidget._map_to_image` (src/main.py lines 360-367): a degenerate
scale returns the point unchanged; otherwise both coordinates are divided
by the scale, truncated toward zero with `int(...)`, and clamped into
`[0, W-1] × [0, H-1]`. -/
def mapToImage (scale : ℚ) (imgW imgH : ℤ) (p : QPointT) : QPointT :=
  if scale ≤ 0 then p
  else
    let x := ratTrunc ((p.x : ℚ) / scale)
    let y := ratTrunc ((p.y : ℚ) / scale)
    ⟨max 0 (min (imgW - 1) x), max 0 (min (imgH - 1) y)⟩

/-- Scale update of `FloatingWindow.wheelEvent` (src/main.py lines
191-199): a zero wheel delta is ignored; otherwise the scale is
multiplied by `1.1` (scroll up) or `0.9` (scroll down) and clamped with
`max(0.2, min(5.0, scale * factor))`. -/
def zoomStep (delta : ℤ) (scale : ℚ) : ℚ :=
  if delta = 0 then scale
  else
    let factor : ℚ := if 0 < delta then 11 / 10 else 9 / 10
    max (1 / 5) (min 5 (scale * factor))

/-- Scale after `n` consecutive scroll-up notches starting from the
initial scale `1.0`. -/
def zoomUps : ℕ → ℚ
  | 0 => 1
  | n + 1 => zoomStep 120 (zoomUps n)

/-- `SizeButton.wheelEvent` (src/main.py lines 380-387): a zero delta is
ignored; otherwise the size steps by `+1` (scroll up) or `-1` (scroll
down) and is clamped with `max(1, min(40, size + step))`. -/
def sizeWheel (delta : ℤ) (size : ℤ) : ℤ :=
  if delta = 0 then size
  else max 1 (min 40 (size + if 0 < delta then 1 else -1))

/-- RGB color triple, mirroring `QtGui.QColor`. -/
structure RGB where
  r : ℤ
  g : ℤ
  b : ℤ
deriving DecidableEq, Repr

/-- One line segment painted into the `FloatingWindow` image by
`draw_to`: endpoints in image space, pen color and width. -/
structure Segment where
  a : QPointT
  b : QPointT
  color : RGB
  size : ℤ
deriving DecidableEq, Repr

/-- Mutable fields of `FloatingWindow` relevant to the claims. The image
buffer is represented by the list of segments painted into it. -/
structure FWState where
  scale : ℚ
  penActive : Bool
  brushSize : ℤ
  brushColor : RGB
  drawing : Bool
  lastPoint : Option QPointT
  toolbarVisible : Bool
  popupOpen : Bool
  closed : Bool
  strokes : List Segment
deriving DecidableEq, Repr

/-- Initial `FloatingWindow` state set up in `__init__`. -/
def FWState.init : FWState :=
  { scale := 1
    penActive := false
    brushSize := 6
    brushColor := ⟨220, 30, 30⟩
    drawing := false
    lastPoint := none
    toolbarVisible := false
    popupOpen := false
    closed := false
    strokes := [] }

/-- `FloatingWindow.end_draw`. -/
def FWState.endDraw (s : FWState) : FWState :=
  { s with drawing := false, lastPoint := none }

/-- `FloatingWindow._set_pen_active`: records the flag and, when
deactivating, calls `end_draw`. -/
def FWState.setPenActive (s : FWState) (active : Bool) : FWState :=
  if active then { s with penActive := true }
  else { s with penActive := false }.endDraw

/-- `FloatingWindow._toggle_toolbar` (space key): flips visibility and,
when hiding, forces the pen off and closes the color popup. -/
def FWState.toggleToolbar (s : FWState) : FWState :=
  let s1 := { s with toolbarVisible := !s.toolbarVisible }
  if s1.toolbarVisible then s1
  else { s1.setPenActive false with popupOpen := false }

/-- `FloatingWindow._handle_escape` (src/main.py lines 247-254): while
the pen is active or the toolbar is visible, escape only deactivates the
pen, hides the toolbar and closes the popup; otherwise it closes the
window. -/
def FWState.handleEscape (s : FWState) : FWState :=
  if s.penActive || s.toolbarVisible then
    { s.setPenActive false with toolbarVisible := false, popupOpen := false }
  else { s with closed := true }

/-- `FloatingWindow.start_draw` (src/main.py lines 289-293). -/
def FWState.startDraw (s : FWState) (pos : QPointT) : FWState :=
  if !s.penActive then s
  else { s with drawing := true, lastPoint := some pos }

/-- `FloatingWindow.draw_to` (src/main.py lines 295-306): paints a
segment from the last point to `pos` with the current brush and advances
the last point; a guard makes it a no-op when no stroke is in progress. -/
def FWState.drawTo (s : FWState) (pos : QPointT) : FWState :=
  if ¬s.drawing ∨ s.lastPoint = none then s
  else
    { s with
      strokes :=
        s.strokes ++ [⟨s.lastPoint.getD ⟨0, 0⟩, pos, s.brushColor, s.brushSize⟩]
      lastPoint := some pos }

/-- `FloatingWindow.wheelEvent`: ignored while the pen is active,
otherwise updates the scale by `zoomStep`. -/
def FWState.wheelEvent (s : FWState) (delta : ℤ) : FWState :=
  if s.penActive then s else { s with scale := zoomStep delta s.scale }

/-- Brush-size wheel on the size control, as seen by the window: the
`sizeChanged` signal feeds `_on_brush_size_changed`. -/
def FWState.sizeWheelEvent (s : FWState) (delta : ℤ) : FWState :=
  { s with brushSize := sizeWheel delta s.brushSize }

/-- Physical-pixel conversion inside `SnipasteNanoApp._handle_capture`
(src/main.py lines 519-525): each of x, y, width, height of the logical
selection rectangle is multiplied by the device pixel ratio and truncated
with `int(...)`, then a `QRect(x, y, w, h)` is built from the results. -/
def scaleRectToPhysical (dpr : ℚ) (r : QRectT) : QRectT :=
  QRectT.mk4 (ratTrunc ((r.xpos : ℚ) * dpr)) (ratTrunc ((r.ypos : ℚ) * dpr))
    (ratTrunc ((r.width : ℚ) * dpr)) (ratTrunc ((r.height : ℚ) * dpr))

/-- Region selection of `SnipasteNanoApp._handle_capture` (src/main.py
lines 506-533): the scaled rectangle is intersected with the pixmap
bounds `QRect(0, 0, pixW, pixH)`; when the result has width or height
below 1 the capture is discarded (`none`), otherwise the intersected
region is cropped and shown in a new floating window. -/
def handleCaptureRegion (dpr : ℚ) (sel : QRectT) (pixW pixH : ℤ) :
    Option QRectT :=
  let scaled := (scaleRectToPhysical dpr sel).intersected (QRectT.mk4 0 0 pixW pixH)
  if scaled.width < 1 ∨ scaled.height < 1 then none else some scaled

/-- Captured pixmap data relevant to the claims. -/
structure PixmapT where
  w : ℤ
  h : ℤ
  dpr : ℚ
deriving DecidableEq, Repr

/-- Mutable fields of `SnipasteNanoApp`. -/
structure AppState where
  overlay : Option OverlaySt
  capturePixmap : Option PixmapT
  captureScreen : Option ℤ
  floatingWindows : List FWState
deriving DecidableEq, Repr

/-- External collaborators consulted by `start_capture`: the screen under
the cursor, the primary screen, and the per-screen grab result (`none`
models a null pixmap). -/
structure CaptureEnv where
  screenUnderCursor : Option ℤ
  primaryScreen : Option ℤ
  grabResult : ℤ → Option PixmapT

/-- `SnipasteNanoApp.start_capture` (src/main.py lines 476-496): a second
capture while an overlay exists returns immediately; otherwise the screen
is resolved, the screen grabbed, and a fresh overlay installed. -/
def startCapture (env : CaptureEnv) (s : AppState) : AppState :=
  if s.overlay.isSome then s
  else
    match env.screenUnderCursor.orElse (fun _ => env.primaryScreen) with
    | none => s
    | some scr =>
      match env.grabResult scr with
      | none => s
      | some pix =>
        { s with
          overlay := some OverlaySt.init
          capturePixmap := some pix
          captureScreen := some scr }

/-- C8: the claimed symmetry `normalizeRect(O,C) = normalizeRect(C,O)` fails on
the code at O = (0,0), C = (10,10): Qt 6 `normalized` moves swapped corners
inwards by one unit, so swapping the arguments shrinks the rectangle. -/
theorem C8_counterexample :
    normalizeRect ⟨0, 0⟩ ⟨10, 10⟩ ≠ normalizeRect ⟨10, 10⟩ ⟨0, 0⟩ := by decide

/-- C8 (amended): for all points O and C the normalized selection rectangle has
non-negative width and height, but it equals the one computed with the
arguments swapped exactly when O = C. -/
theorem C8_normalize_props (o c : QPointT) :
    0 ≤ (normalizeRect o c).width ∧ 0 ≤ (normalizeRect o c).height ∧
      (normalizeRect o c = normalizeRect c o ↔ o = c) := by
  obtain ⟨ox, oy⟩ := o
  obtain ⟨cx, cy⟩ := c
  simp only [normalizeRect, QRectT.fromCorners, QRectT.normalized, QRectT.width,
    QRectT.height, QRectT.mk.injEq, QPointT.mk.injEq]
  split_ifs <;> omega

/-- C3: a left-button release after a selection gesture commits exactly when
the normalized rectangle is at least 4 wide and 4 tall, and cancels otherwise;
exactly one of the two signals is emitted, and the gesture with origin
(100,100) and current point (102,103) cancels. -/
theorem C3_commit_iff_min_size :
    (∀ o c : QPointT,
      ((∃ r, OverlaySt.mouseRelease ⟨some o, some c⟩ true = some (.committed r)) ↔
        4 ≤ (normalizeRect o c).width ∧ 4 ≤ (normalizeRect o c).height) ∧
      (OverlaySt.mouseRelease ⟨some o, some c⟩ true = some .cancelledGesture ↔
        (normalizeRect o c).width < 4 ∨ (normalizeRect o c).height < 4)) ∧
    OverlaySt.mouseRelease ⟨some ⟨100, 100⟩, some ⟨102, 103⟩⟩ true
      = some .cancelledGesture := by
  refine ⟨fun o c => ?_, by decide⟩
  by_cases h : (normalizeRect o c).width < 4 ∨ (normalizeRect o c).height < 4 <;>
    simp [OverlaySt.mouseRelease, OverlaySt.selectionRect, h] <;> omega

/-- C2: the claim that the commit at O = (50,50), C = (150,120) emits the
rectangle (x=50, y=50, width=100, height=70) fails on the code: the emitted
`QRect` spans both corner points inclusively, so its width is 101 and its
height 71. -/
theorem C2_counterexample :
    OverlaySt.mouseRelease ⟨some ⟨50, 50⟩, some ⟨150, 120⟩⟩ true
        = some (.committed (QRectT.mk 50 50 150 120)) ∧
      ¬((QRectT.mk 50 50 150 120).width = 100 ∧
        (QRectT.mk 50 50 150 120).height = 70) := by decide

/-- C2 (amended): the release at O = (50,50), C = (150,120) commits and emits
the rectangle with x = 50, y = 50, width = 101, height = 71; in general, for
C to the lower-right of O the committed rectangle has width `C.x - O.x + 1`
and height `C.y - O.y + 1`. -/
theorem C2_commit_rect :
    (OverlaySt.mouseRelease ⟨some ⟨50, 50⟩, some ⟨150, 120⟩⟩ true
        = some (.committed (QRectT.mk 50 50 150 120)) ∧
      (QRectT.mk 50 50 150 120).xpos = 50 ∧ (QRectT.mk 50 50 150 120).ypos = 50 ∧
      (QRectT.mk 50 50 150 120).width = 101 ∧
      (QRectT.mk 50 50 150 120).height = 71) ∧
    ∀ o c : QPointT, o.x ≤ c.x → o.y ≤ c.y →
      (normalizeRect o c).width = c.x - o.x + 1 ∧
      (normalizeRect o c).height = c.y - o.y + 1 := by
  refine ⟨by decide, fun o c hx hy => ?_⟩
  simp only [normalizeRect, QRectT.fromCorners, QRectT.normalized, QRectT.width,
    QRectT.height]
  split_ifs <;> omega

/-- C2 witness: the general width/height formula evaluated at O = (0,0),
C = (10,5). -/
theorem C2_commit_rect_witness :
    (normalizeRect ⟨0, 0⟩ ⟨10, 5⟩).width = 10 - 0 + 1 ∧
      (normalizeRect ⟨0, 0⟩ ⟨10, 5⟩).height = 5 - 0 + 1 :=
  C2_commit_rect.2 ⟨0, 0⟩ ⟨10, 5⟩ (by decide) (by decide)

/-- C7: requesting a capture while an overlay is already open returns
immediately and leaves the whole application state unchanged, whatever the
environment (screens, grab results) provides. -/
theorem C7_start_capture_noop (env : CaptureEnv) (s : AppState)
    (h : s.overlay.isSome = true) : startCapture env s = s := by
  simp [startCapture, h]

/-- C7 witness: the no-op at a concrete state with an open overlay. -/
theorem C7_start_capture_noop_witness :
    startCapture ⟨none, none, fun _ => none⟩
        ⟨some OverlaySt.init, none, none, []⟩
      = ⟨some OverlaySt.init, none, none, []⟩ :=
  C7_start_capture_noop ⟨none, none, fun _ => none⟩
    ⟨some OverlaySt.init, none, none, []⟩ rfl

/-- C10: `start_draw` with the pen inactive and `draw_to` with no stroke in
progress are silent no-ops: the whole window state, including the painted
segments and the stroke flags, is returned unchanged. -/
theorem C10_stroke_guards (s : FWState) (p : QPointT) :
    (s.penActive = false → s.startDraw p = s) ∧
      (s.drawing = false → s.drawTo p = s) := by
  constructor
  · intro h
    simp [FWState.startDraw, h]
  · intro h
    simp [FWState.drawTo, h]

/-- C10 witness: both guards evaluated at the initial window state. -/
theorem C10_stroke_guards_witness :
    FWState.init.startDraw ⟨3, 4⟩ = FWState.init ∧
      FWState.init.drawTo ⟨3, 4⟩ = FWState.init :=
  ⟨(C10_stroke_guards FWState.init ⟨3, 4⟩).1 rfl,
    (C10_stroke_guards FWState.init ⟨3, 4⟩).2 rfl⟩

/-- C6: while the pen is active or the toolbar is visible, escape leaves the
closed flag untouched (the window survives) and only deactivates the pen and
hides the toolbar; a second escape in the resulting state closes the
window. -/
theorem C6_escape_two_stage (s : FWState)
    (h : s.penActive = true ∨ s.toolbarVisible = true) :
    s.handleEscape.closed = s.closed ∧
      s.handleEscape.penActive = false ∧
      s.handleEscape.toolbarVisible = false ∧
      s.handleEscape.handleEscape.closed = true := by
  have hcond : (s.penActive || s.toolbarVisible) = true := by
    rcases h with h | h <;> simp [h]
  simp [FWState.handleEscape, FWState.setPenActive, FWState.endDraw, hcond]

/-- C6 witness: the two-stage escape at a window with the pen active and the
toolbar visible. -/
theorem C6_escape_two_stage_witness :
    ({ FWState.init with penActive := true, toolbarVisible := true} :
        FWState).handleEscape.closed
        = ({ FWState.init with penActive := true, toolbarVisible := true} :
          FWState).closed ∧
      ({ FWState.init with penActive := true, toolbarVisible := true} :
          FWState).handleEscape.penActive = false ∧
      ({ FWState.init with penActive := true, toolbarVisible := true} :
          FWState).handleEscape.toolbarVisible = false ∧
      ({ FWState.init with penActive := true, toolbarVisible := true} :
          FWState).handleEscape.handleEscape.closed = true :=
  C6_escape_two_stage
    { FWState.init with penActive := true, toolbarVisible := true}
    (Or.inl rfl)

/-- C9: the claim that every scroll-up notch changes the brush size by exactly
+1 fails at the upper clamp: at size 40 a scroll-up notch leaves the size at
40. -/
theorem C9_counterexample : sizeWheel 120 40 = 40 ∧ sizeWheel 120 40 ≠ 40 + 1 := by
  decide

/-- C9 (amended): each scroll-up notch sets the brush size to
`min(40, size + 1)` and each scroll-down notch to `max(1, size - 1)` — a step
of ±1 except at the clamp boundaries — and over any sequence of notches the
size stays in [1, 40]. -/
theorem C9_brush_size :
    (∀ delta sz : ℤ, 1 ≤ sz → sz ≤ 40 →
      (0 < delta → sizeWheel delta sz = min 40 (sz + 1)) ∧
      (delta < 0 → sizeWheel delta sz = max 1 (sz - 1)) ∧
      1 ≤ sizeWheel delta sz ∧ sizeWheel delta sz ≤ 40) ∧
    (∀ (s : FWState) (delta : ℤ),
      (s.sizeWheelEvent delta).brushSize = sizeWheel delta s.brushSize) ∧
    ∀ (ds : List ℤ) (sz : ℤ), 1 ≤ sz → sz ≤ 40 →
      1 ≤ ds.foldl (fun a d => sizeWheel d a) sz ∧
        ds.foldl (fun a d => sizeWheel d a) sz ≤ 40 := by
  have step : ∀ delta sz : ℤ, 1 ≤ sz → sz ≤ 40 →
      1 ≤ sizeWheel delta sz ∧ sizeWheel delta sz ≤ 40 := by
    intro delta sz h1 h2
    unfold sizeWheel
    split_ifs <;> constructor <;> omega
  refine ⟨fun delta sz h1 h2 => ⟨?_, ?_, step delta sz h1 h2⟩,
    fun s delta => rfl, fun ds => ?_⟩
  · intro hd
    unfold sizeWheel
    split_ifs <;> omega
  · intro hd
    unfold sizeWheel
    split_ifs <;> omega
  · induction ds with
    | nil => intro sz h1 h2; exact ⟨h1, h2⟩
    | cons d tl ih =>
      intro sz h1 h2
      have hs := step d sz h1 h2
      simpa using ih (sizeWheel d sz) hs.1 hs.2

/-- C9 witness: the amended per-notch formulas and range at size 40 with a
scroll-up notch. -/
theorem C9_brush_size_witness :
    sizeWheel 120 40 = min 40 (40 + 1) ∧
      1 ≤ sizeWheel 120 40 ∧ sizeWheel 120 40 ≤ 40 :=
  ⟨((C9_brush_size.1 120 40 (by norm_num) (by norm_num)).1 (by norm_num)),
    (C9_brush_size.1 120 40 (by norm_num) (by norm_num)).2.2⟩

/-- C4: for an image of size at least 1×1 and a scale in [0.2, 5.0], the
window-to-image mapping lands in [0, W-1] × [0, H-1] for every input point,
and any scale ≤ 0 returns the input point unchanged. -/
theorem C4_map_to_image_bounds :
    (∀ (scale : ℚ) (imgW imgH : ℤ) (p : QPointT), 1 ≤ imgW → 1 ≤ imgH →
      1 / 5 ≤ scale → scale ≤ 5 →
      0 ≤ (mapToImage scale imgW imgH p).x ∧
        (mapToImage scale imgW imgH p).x ≤ imgW - 1 ∧
        0 ≤ (mapToImage scale imgW imgH p).y ∧
        (mapToImage scale imgW imgH p).y ≤ imgH - 1) ∧
    ∀ (scale : ℚ) (imgW imgH : ℤ) (p : QPointT), scale ≤ 0 →
      mapToImage scale imgW imgH p = p := by
  constructor
  · intro scale imgW imgH p hW hH hlo hhi
    have hpos : ¬scale ≤ 0 := by linarith
    simp only [mapToImage, hpos, if_false]
    refine ⟨le_max_left 0 _, max_le (by omega) (min_le_left _ _),
      le_max_left 0 _, max_le (by omega) (min_le_left _ _)⟩
  · intro scale imgW imgH p h
    simp [mapToImage, h]

/-- C4 witness: the bounds at scale 1 on a 1×1 image at the origin point, and
the degenerate guard at scale 0. -/
theorem C4_map_to_image_bounds_witness :
    (0 ≤ (mapToImage 1 1 1 ⟨0, 0⟩).x ∧ (mapToImage 1 1 1 ⟨0, 0⟩).x ≤ 1 - 1 ∧
      0 ≤ (mapToImage 1 1 1 ⟨0, 0⟩).y ∧ (mapToImage 1 1 1 ⟨0, 0⟩).y ≤ 1 - 1) ∧
      mapToImage 0 7 9 ⟨5, 6⟩ = ⟨5, 6⟩ :=
  ⟨C4_map_to_image_bounds.1 1 1 1 ⟨0, 0⟩ (by norm_num) (by norm_num)
      (by norm_num) (by norm_num),
    C4_map_to_image_bounds.2 0 7 9 ⟨5, 6⟩ (by norm_num)⟩

/-- An intersected rectangle is either the null rectangle or has width and
height at least 1: Qt's `operator&` returns the null rectangle whenever the
(normalized) spans are disjoint, and an overlap of inclusive spans is at least
one pixel wide. -/
lemma intersected_null_or_pos (a b : QRectT) :
    a.intersected b = QRectT.nullRect ∨
      (1 ≤ (a.intersected b).width ∧ 1 ≤ (a.intersected b).height) := by
  simp only [QRectT.intersected]
  split_ifs <;>
    first
      | exact Or.inl rfl
      | (right
         simp_all only [Bool.or_eq_true, decide_eq_true_eq, not_or,
           QRectT.width, QRectT.height]
         omega)

/-- C5: the logical selection rectangle (10,10,50,40) at device pixel ratio 2
scales to the physical rectangle (20,20,100,80) before intersection; in
general the scaled rectangle is intersected with the pixmap bounds, the
capture is discarded exactly when the intersected region has zero width or
zero height, and otherwise the intersected region itself is cropped into the
new floating window. -/
theorem C5_capture_scaling :
    scaleRectToPhysical 2 (QRectT.mk4 10 10 50 40) = QRectT.mk4 20 20 100 80 ∧
    ∀ (dpr : ℚ) (sel : QRectT) (pixW pixH : ℤ),
      (handleCaptureRegion dpr sel pixW pixH = none ↔
        ((scaleRectToPhysical dpr sel).intersected
          (QRectT.mk4 0 0 pixW pixH)).width = 0 ∨
        ((scaleRectToPhysical dpr sel).intersected
          (QRectT.mk4 0 0 pixW pixH)).height = 0) ∧
      (handleCaptureRegion dpr sel pixW pixH = none ∨
        handleCaptureRegion dpr sel pixW pixH =
          some ((scaleRectToPhysical dpr sel).intersected
            (QRectT.mk4 0 0 pixW pixH))) := by
  constructor
  · norm_num [scaleRectToPhysical, ratTrunc, QRectT.mk4, QRectT.xpos,
      QRectT.ypos, QRectT.width, QRectT.height]
  · intro dpr sel pixW pixH
    rcases intersected_null_or_pos (scaleRectToPhysical dpr sel)
        (QRectT.mk4 0 0 pixW pixH) with h | h
    · constructor
      · simp [handleCaptureRegion, h, QRectT.nullRect, QRectT.width,
          QRectT.height]
      · left
        simp [handleCaptureRegion, h, QRectT.nullRect, QRectT.width,
          QRectT.height]
    · have hw : ¬(((scaleRectToPhysical dpr sel).intersected
          (QRectT.mk4 0 0 pixW pixH)).width < 1 ∨
          ((scaleRectToPhysical dpr sel).intersected
            (QRectT.mk4 0 0 pixW pixH)).height < 1) := by omega
      constructor
      · simp only [handleCaptureRegion, if_neg hw]
        constructor
        · intro hcontra
          exact absurd hcontra (by simp)
        · intro hzero
          omega
      · right
        simp only [handleCaptureRegion, if_neg hw]

/-- Auxiliary bound: powers of 11/10 stay at least 1. -/
lemma one_le_pow_eleven_tenths (n : ℕ) : (1 : ℚ) ≤ (11 / 10) ^ n := by
  induction n with
  | zero => norm_num
  | succ k ih =>
    rw [pow_succ]
    nlinarith

/-- Characterization of `zoomStep` on a zero wheel delta. -/
lemma zoomStep_eq_zero {delta : ℤ} (hd : delta = 0) (x : ℚ) :
    zoomStep delta x = x := by
  unfold zoomStep
  rw [if_pos hd]

/-- Characterization of `zoomStep` on a scroll-up delta. -/
lemma zoomStep_eq_pos {delta : ℤ} (hd : 0 < delta) (x : ℚ) :
    zoomStep delta x = max (1 / 5) (min 5 (x * (11 / 10))) := by
  unfold zoomStep
  rw [if_neg (by omega : ¬delta = 0), if_pos hd]

/-- Characterization of `zoomStep` on a scroll-down delta. -/
lemma zoomStep_eq_neg {delta : ℤ} (hd : delta < 0) (x : ℚ) :
    zoomStep delta x = max (1 / 5) (min 5 (x * (9 / 10))) := by
  unfold zoomStep
  rw [if_neg (by omega : ¬delta = 0), if_neg (by omega : ¬0 < delta)]

/-- Auxiliary step: a scroll-up notch applied to a clamped power value keeps
the `min 5` shape. -/
lemma zoomStep_up_min (x : ℚ) (hx : 1 ≤ x) :
    zoomStep 120 (min 5 x) = min 5 (x * (11 / 10)) := by
  rw [zoomStep_eq_pos (by norm_num : (0 : ℤ) < 120)]
  rcases le_or_lt x 5 with h | h
  · rw [min_eq_right h]
    exact max_eq_right (le_min (by norm_num) (by linarith))
  · rw [min_eq_left h.le,
      min_eq_left (show (5 : ℚ) ≤ 5 * (11 / 10) by norm_num),
      min_eq_left (show (5 : ℚ) ≤ x * (11 / 10) by linarith)]
    exact max_eq_right (by norm_num)

/-- C1: the claim that a scroll-down notch sets the scale to
`max(0.2, prevScale / 1.1)` fails on the code at the initial scale 1.0: the
code multiplies by 0.9, giving 9/10 rather than 10/11. -/
theorem C1_counterexample :
    (FWState.init.wheelEvent (-120)).scale
      ≠ max (1 / 5) (FWState.init.scale / (11 / 10)) := by
  have h1 : (FWState.init.wheelEvent (-120)).scale = 9 / 10 := by
    have hw : (FWState.init.wheelEvent (-120)).scale
        = zoomStep (-120) FWState.init.scale := by
      simp [FWState.wheelEvent, show FWState.init.penActive = false from rfl]
    rw [hw, zoomStep_eq_neg (by norm_num : (-120 : ℤ) < 0),
      show FWState.init.scale = 1 from rfl, one_mul,
      min_eq_right (by norm_num : (9 / 10 : ℚ) ≤ 5),
      max_eq_right (by norm_num : (1 / 5 : ℚ) ≤ 9 / 10)]
  have h2 : max (1 / 5 : ℚ) (FWState.init.scale / (11 / 10)) = 10 / 11 := by
    rw [show FWState.init.scale = 1 from rfl,
      max_eq_right (by norm_num : (1 / 5 : ℚ) ≤ 1 / (11 / 10))]
    norm_num
  rw [h1, h2]
  norm_num

/-- C1 (amended): with the pen off and the scale in [0.2, 5.0], a scroll-up
notch sets the scale to `min(5, prev * 1.1)` — so N consecutive scroll-up
notches from 1.0 give `min(5, 1.1^N)` — while a scroll-down notch sets it to
`max(0.2, prev * 0.9)` (the code multiplies by 0.9, not by 1/1.1), and the
scale always stays clamped in [0.2, 5.0]. -/
theorem C1_zoom_update :
    (∀ (s : FWState) (delta : ℤ), s.penActive = false →
      1 / 5 ≤ s.scale → s.scale ≤ 5 →
      (0 < delta → (s.wheelEvent delta).scale = min 5 (s.scale * (11 / 10))) ∧
      (delta < 0 →
        (s.wheelEvent delta).scale = max (1 / 5) (s.scale * (9 / 10))) ∧
      (1 / 5 ≤ (s.wheelEvent delta).scale ∧ (s.wheelEvent delta).scale ≤ 5)) ∧
    ∀ n : ℕ, zoomUps n = min 5 ((11 / 10 : ℚ) ^ n) := by
  constructor
  · intro s delta hpen h1 h2
    have hw : (s.wheelEvent delta).scale = zoomStep delta s.scale := by
      simp [FWState.wheelEvent, hpen]
    rw [hw]
    refine ⟨?_, ?_, ?_⟩
    · intro hd
      rw [zoomStep_eq_pos hd]
      exact max_eq_right (le_min (by norm_num) (by linarith))
    · intro hd
      rw [zoomStep_eq_neg hd, min_eq_right (by linarith : s.scale * (9 / 10) ≤ 5)]
    · rcases lt_trichotomy delta 0 with hd | hd | hd
      · rw [zoomStep_eq_neg hd]
        exact ⟨le_max_left _ _, max_le (by norm_num) (min_le_left _ _)⟩
      · rw [zoomStep_eq_zero hd]
        exact ⟨h1, h2⟩
      · rw [zoomStep_eq_pos hd]
        exact ⟨le_max_left _ _, max_le (by norm_num) (min_le_left _ _)⟩
  · intro n
    induction n with
    | zero =>
      show (1 : ℚ) = min 5 ((11 / 10 : ℚ) ^ 0)
      rw [pow_zero, min_eq_right (by norm_num : (1 : ℚ) ≤ 5)]
    | succ k ih =>
      show zoomStep 120 (zoomUps k) = min 5 ((11 / 10 : ℚ) ^ (k + 1))
      rw [ih, zoomStep_up_min _ (one_le_pow_eleven_tenths k), ← pow_succ]

/-- C1 witness: the amended scroll-up and scroll-down formulas and the clamp
at the initial window state. -/
theorem C1_zoom_update_witness :
    (FWState.init.wheelEvent 120).scale = min 5 (FWState.init.scale * (11 / 10)) ∧
      (FWState.init.wheelEvent (-120)).scale
        = max (1 / 5) (FWState.init.scale * (9 / 10)) ∧
      zoomUps 3 = min 5 ((11 / 10 : ℚ) ^ 3) :=
  ⟨(C1_zoom_update.1 FWState.init 120 rfl (by norm_num [FWState.init])
      (by norm_num [FWState.init])).1 (by norm_num),
    (C1_zoom_update.1 FWState.init (-120) rfl (by norm_num [FWState.init])
      (by norm_num [FWState.init])).2.1 (by norm_num),
    C1_zoom_update.2 3⟩

end Snipaste
